import Mathlib

/-!
Shallow embedding of the financial computation engine of `boligeie.py`,
a mortgage affordability and cost-sharing calculator for two co-borrowers.
Monetary quantities are modelled as exact rationals (`ℚ`), idealising the
Python floats; a Python `ZeroDivisionError` or `TypeError` is modelled by
an `Option` result.  Policy selectors that the source dispatches on as
strings are kept as strings where the claims range over arbitrary strings
(`beregn_fordeling`, `generer_renteprognose`); the four settlement models
chosen by a fixed radio widget are modelled as a four-way sum type.
-/

set_option maxRecDepth 10000

/-- Tax deduction rate on mortgage interest (`SKATTESATS_RENTEFRADRAG = 0.22`). -/
def SKATTESATS_RENTEFRADRAG : ℚ := 22 / 100

/-- Embedding of `beregn_terminbelop(laan, rente, nedbetalingstid_aar)`:
monthly payment of an annuity loan.  The term is an integer (Python `int`
from the UI); `none` models the `ZeroDivisionError` Python raises when a
denominator is zero, or when `0.0 ** n` is taken with `n < 0`. -/
def beregn_terminbelop (laan rente : ℚ) (nedbetalingstid_aar : ℤ) : Option ℚ :=
  if rente = 0 then
    if ((nedbetalingstid_aar * 12 : ℤ) : ℚ) = 0 then none
    else some (laan / ((nedbetalingstid_aar * 12 : ℤ) : ℚ))
  else
    let maanedlig_rente : ℚ := rente / 100 / 12
    let antall_terminer : ℤ := nedbetalingstid_aar * 12
    if 1 + maanedlig_rente = 0 ∧ antall_terminer < 0 then none
    else if (1 + maanedlig_rente) ^ antall_terminer - 1 = 0 then none
    else some (laan * (maanedlig_rente * (1 + maanedlig_rente) ^ antall_terminer) /
      ((1 + maanedlig_rente) ^ antall_terminer - 1))

/-- One row of the amortization plan (one month): year, month, payment,
interest, principal, remaining balance, tax deduction, net cost. -/
structure Rad where
  aar : ℕ
  maaned : ℕ
  terminbelop : ℚ
  renter : ℚ
  avdrag : ℚ
  gjenstaaende : ℚ
  skattefradrag : ℚ
  nettokostnad : ℚ
  deriving DecidableEq

/-- Loop body of `beregn_amortiseringsplan`: month counter `mnd`, `fuel`
months remaining of the display horizon, current balance `gjenstaaende`;
it stops when the balance is `≤ 0` or the horizon is exhausted. -/
def amortLoop (maanedlig_rente terminbelop : ℚ) : ℕ → ℕ → ℚ → List Rad
  | _, 0, _ => []
  | mnd, fuel + 1, gjenstaaende =>
    if gjenstaaende ≤ 0 then []
    else
      let renter := gjenstaaende * maanedlig_rente
      let avdrag := terminbelop - renter
      let gjenstaaende2 := gjenstaaende - avdrag
      ⟨mnd / 12 + 1, mnd % 12 + 1, terminbelop, renter, avdrag, max 0 gjenstaaende2,
        renter * SKATTESATS_RENTEFRADRAG, terminbelop - renter * SKATTESATS_RENTEFRADRAG⟩ ::
      amortLoop maanedlig_rente terminbelop (mnd + 1) fuel gjenstaaende2

/-- Embedding of `beregn_amortiseringsplan(laan, rente, nedbetalingstid_aar, antall_aar)`.
`antall_aar = none` models the Python default `None`, which the source
replaces by the display horizon `min 10 nedbetalingstid_aar`. -/
def beregn_amortiseringsplan (laan rente : ℚ) (nedbetalingstid_aar : ℕ)
    (antall_aar : Option ℕ) : Option (List Rad) :=
  let antall := antall_aar.getD (min 10 nedbetalingstid_aar)
  (beregn_terminbelop laan rente (nedbetalingstid_aar : ℤ)).map
    (fun terminbelop => amortLoop (rente / 100 / 12) terminbelop 0 (antall * 12) laan)

/-- Embedding of `beregn_fordeling(total_kostnad, inntekt_a, inntekt_b,
fordeling_type, custom_split)`.  `custom_split = none` models Python `None`;
a `none` result models the `TypeError` Python raises when the
`Egendefinert` branch divides `None` by 100. -/
def beregn_fordeling (total_kostnad inntekt_a inntekt_b : ℚ) (fordeling_type : String)
    (custom_split : Option ℚ) : Option (ℚ × ℚ) :=
  if fordeling_type = "50/50" then some (total_kostnad / 2, total_kostnad / 2)
  else if fordeling_type = "Proporsjonal etter inntekt" then
    if inntekt_a + inntekt_b = 0 then some (0, 0)
    else
      let andel_a := inntekt_a / (inntekt_a + inntekt_b)
      some (total_kostnad * andel_a, total_kostnad * (1 - andel_a))
  else if fordeling_type = "Egendefinert" then
    match custom_split with
    | none => none
    | some c =>
      let andel_a := c / 100
      some (total_kostnad * andel_a, total_kostnad * (1 - andel_a))
  else some (total_kostnad / 2, total_kostnad / 2)

/-- Norges Bank policy-rate projection table (June 2025) used by
`generer_renteprognose`; the source only ever queries years 2025–2034,
all of 2029–2034 being `3.0`. -/
def styringsrente_prognose : ℕ → ℚ
  | 2025 => 425 / 100
  | 2026 => 4
  | 2027 => 35 / 10
  | 2028 => 31 / 10
  | _ => 3

/-- Shared shape of the two legacy iterative rate loops of
`generer_renteprognose` (`moderat` and `høy`): at elapsed year `i` add the
tiered increment `step i` to the running rate and record it capped at
`cap`; the uncapped running rate carries to the next year. -/
def legacyRenteLoop (step : ℕ → ℚ) (cap : ℚ) : ℕ → ℕ → ℚ → List ℚ
  | _, 0, _ => []
  | i, n + 1, current =>
    let c := current + step i
    min cap c :: legacyRenteLoop step cap (i + 1) n c

/-- Embedding of `generer_renteprognose(basis_rente, prognose_type)`:
the (year, rate) table for years 2025–2034. -/
def generer_renteprognose (basis_rente : ℚ) (prognose_type : String) : List (ℕ × ℚ) :=
  let aar := (List.range 10).map (fun i => 2025 + i)
  let renter : List ℚ :=
    if prognose_type = "norges_bank" then
      aar.map (fun y => styringsrente_prognose y + 15 / 10)
    else if prognose_type = "optimistisk" then
      aar.map (fun y => styringsrente_prognose y + 1)
    else if prognose_type = "pessimistisk" then
      aar.map (fun y => min 8 (styringsrente_prognose y + 5 / 10 + 2))
    else if prognose_type = "lav" then
      (List.range 10).map (fun i => max (15 / 10) (basis_rente - 1 / 10 * i))
    else if prognose_type = "moderat" then
      legacyRenteLoop (fun i => if i < 3 then 2 / 10 else if i < 5 then 1 / 10 else 5 / 100)
        6 0 10 basis_rente
    else
      legacyRenteLoop (fun i => if i < 2 then 5 / 10 else if i < 5 then 3 / 10 else 1 / 10)
        8 0 10 basis_rente
  aar.zip renter

/-- The four settlement models offered by the fixed radio widget in the
sale tab (`"Modell 1"` … `"Modell 4"` substring dispatch in the source). -/
inductive Fordelingsmodell
  | modell1
  | modell2
  | modell3
  | modell4
  deriving DecidableEq

/-- Embedding of the sale tab's `netto_salgssum` computation:
`salgspris = boligpris*(1+verdiendring_prosent/100)`, selling costs are
`salgskostnader_prosent` percent of the sale price, and the outstanding
loan is subtracted. -/
def netto_salgssum (boligpris verdiendring_prosent salgskostnader_prosent
    gjenstaaende_laan : ℚ) : ℚ :=
  let salgspris := boligpris * (1 + verdiendring_prosent / 100)
  let salgskostnader := salgspris * (salgskostnader_prosent / 100)
  salgspris - salgskostnader - gjenstaaende_laan

/-- Embedding of the sale tab's settlement computation
(`utbetaling_a`, `utbetaling_b` under the four models).  Free inputs are
the property price, appreciation percent, selling-cost percent,
outstanding balance, the total equity `egenkapital` and party A's part
`egenkapital_a` (the source always sets `egenkapital_b = egenkapital -
egenkapital_a`), and each party's allocated principal `nedbetalt_a`,
`nedbetalt_b`.  Each model mirrors the source's guarded divisions. -/
def utbetalinger (modell : Fordelingsmodell)
    (boligpris verdiendring_prosent salgskostnader_prosent gjenstaaende_laan
     egenkapital egenkapital_a nedbetalt_a nedbetalt_b : ℚ) : ℚ × ℚ :=
  let salgspris := boligpris * (1 + verdiendring_prosent / 100)
  let verdiendring_kr := salgspris - boligpris
  let netto := netto_salgssum boligpris verdiendring_prosent salgskostnader_prosent
    gjenstaaende_laan
  let egenkapital_b := egenkapital - egenkapital_a
  let total_investert_a := egenkapital_a + nedbetalt_a
  let total_investert_b := egenkapital_b + nedbetalt_b
  let total_investert := total_investert_a + total_investert_b
  match modell with
  | .modell1 =>
    let andel_a := if 0 < total_investert then total_investert_a / total_investert else 1 / 2
    let andel_b := if 0 < total_investert then total_investert_b / total_investert else 1 / 2
    (netto * andel_a, netto * andel_b)
  | .modell2 =>
    let ek_andel_a := if 0 < egenkapital then egenkapital_a / egenkapital else 1 / 2
    let ek_andel_b := if 0 < egenkapital then egenkapital_b / egenkapital else 1 / 2
    if total_investert < netto then
      let gevinst := netto - total_investert
      (total_investert_a + gevinst * ek_andel_a, total_investert_b + gevinst * ek_andel_b)
    else
      (if 0 < total_investert then netto * (total_investert_a / total_investert)
        else netto * (1 / 2),
       if 0 < total_investert then netto * (total_investert_b / total_investert)
        else netto * (1 / 2))
  | .modell3 =>
    if total_investert < netto then
      let gevinst := netto - total_investert
      (total_investert_a + gevinst * (1 / 2), total_investert_b + gevinst * (1 / 2))
    else
      (if 0 < total_investert then netto * (total_investert_a / total_investert)
        else netto * (1 / 2),
       if 0 < total_investert then netto * (total_investert_b / total_investert)
        else netto * (1 / 2))
  | .modell4 =>
    if 0 < verdiendring_kr then
      let ek_andel_a := if 0 < egenkapital then egenkapital_a / egenkapital else 1 / 2
      let ek_andel_b := if 0 < egenkapital then egenkapital_b / egenkapital else 1 / 2
      if total_investert < netto then
        let gevinst := netto - total_investert
        (total_investert_a + gevinst * ek_andel_a, total_investert_b + gevinst * ek_andel_b)
      else
        (if 0 < total_investert then netto * (total_investert_a / total_investert)
          else netto * (1 / 2),
         if 0 < total_investert then netto * (total_investert_b / total_investert)
          else netto * (1 / 2))
    else
      let andel_a := if 0 < total_investert then total_investert_a / total_investert else 1 / 2
      let andel_b := if 0 < total_investert then total_investert_b / total_investert else 1 / 2
      (netto * andel_a, netto * andel_b)

/-- Hybrid settlement as the SPEC words it (for comparison with the code):
apply the investment-recovery-plus-equity-proportional-surplus split
exactly when `netProceeds > totalInvested`, and the
proportional-by-total-investment split otherwise — keyed on the sign of
`netProceeds - totalInvested`, not on the appreciation sign. -/
def utbetalingerSpecHybrid
    (boligpris verdiendring_prosent salgskostnader_prosent gjenstaaende_laan
     egenkapital egenkapital_a nedbetalt_a nedbetalt_b : ℚ) : ℚ × ℚ :=
  let netto := netto_salgssum boligpris verdiendring_prosent salgskostnader_prosent
    gjenstaaende_laan
  let egenkapital_b := egenkapital - egenkapital_a
  let total_investert_a := egenkapital_a + nedbetalt_a
  let total_investert_b := egenkapital_b + nedbetalt_b
  let total_investert := total_investert_a + total_investert_b
  if total_investert < netto then
    let ek_andel_a := if 0 < egenkapital then egenkapital_a / egenkapital else 1 / 2
    let ek_andel_b := if 0 < egenkapital then egenkapital_b / egenkapital else 1 / 2
    let gevinst := netto - total_investert
    (total_investert_a + gevinst * ek_andel_a, total_investert_b + gevinst * ek_andel_b)
  else
    (if 0 < total_investert then netto * (total_investert_a / total_investert)
      else netto * (1 / 2),
     if 0 < total_investert then netto * (total_investert_b / total_investert)
      else netto * (1 / 2))

/-- Embedding of the ownership-over-time loop of the dashboard
(`eierandel_a_over_tid`): party A's ownership percent after `i` elapsed
years, from initial equity plus the straight-line-amortized share of the
loan attributed to A by the payment-split fraction `avdrag_andel_a`. -/
def eierandel_a_over_tid (egenkapital_a boligpris laanebelop : ℚ)
    (nedbetalingstid : ℕ) (avdrag_andel_a : ℚ) (i : ℕ) : ℚ :=
  let initial_eierandel_a := egenkapital_a / boligpris * 100
  if i = 0 then initial_eierandel_a
  else
    let total_laaneandel := laanebelop / boligpris * 100
    let laaneandel_a := total_laaneandel * avdrag_andel_a
    let gjennomsnittlig_maanedlig_avdrag := laanebelop / ((nedbetalingstid : ℚ) * 12)
    let aarlig_avdrag := gjennomsnittlig_maanedlig_avdrag * 12
    let total_nedbetalt_saa_langt := min (aarlig_avdrag * i) laanebelop
    let prosent_nedbetalt :=
      if 0 < laanebelop then total_nedbetalt_saa_langt / laanebelop else 1
    initial_eierandel_a + laaneandel_a * prosent_nedbetalt

/-- Party B's ownership percent over time: the source runs the same loop
with B's initial equity and the complementary payment fraction
`avdrag_andel_b = 1 - avdrag_andel_a`. -/
def eierandel_b_over_tid (egenkapital_b boligpris laanebelop : ℚ)
    (nedbetalingstid : ℕ) (avdrag_andel_a : ℚ) (i : ℕ) : ℚ :=
  eierandel_a_over_tid egenkapital_b boligpris laanebelop nedbetalingstid
    (1 - avdrag_andel_a) i

/-- One iteration of the amortization loop on the raw (unfloored)
balance: the new balance is `b - avdrag = b - (terminbelop - b * rate)`. -/
def amortStep (maanedlig_rente terminbelop b : ℚ) : ℚ :=
  b - (terminbelop - b * maanedlig_rente)

/-- Raw balance left after the amortization loop, with the loop's early
stop at a non-positive balance. -/
def amortFinal (maanedlig_rente terminbelop : ℚ) : ℕ → ℚ → ℚ
  | 0, b => b
  | fuel + 1, b =>
    if b ≤ 0 then b
    else amortFinal maanedlig_rente terminbelop fuel (amortStep maanedlig_rente terminbelop b)

/-- Sum of the principal portions of an amortization plan. -/
def sumAvdrag (plan : List Rad) : ℚ := (plan.map Rad.avdrag).sum

/-- Relation between two consecutive amortization rows: interest of the
later row is computed from the earlier row's recorded remaining balance,
and the later remaining balance is the earlier one minus the later
principal, floored at zero. -/
def radChain (maanedlig_rente : ℚ) (e1 e2 : Rad) : Prop :=
  e2.renter = e1.gjenstaaende * maanedlig_rente ∧
  e2.gjenstaaende = max 0 (e1.gjenstaaende - e2.avdrag)

/-- Concrete 12-month plan for principal 1200 at rate 0 over 1 year:
every month pays 100 principal and no interest. -/
def plan12 : List Rad :=
  [⟨1, 1, 100, 0, 100, 1100, 0, 100⟩, ⟨1, 2, 100, 0, 100, 1000, 0, 100⟩,
   ⟨1, 3, 100, 0, 100, 900, 0, 100⟩, ⟨1, 4, 100, 0, 100, 800, 0, 100⟩,
   ⟨1, 5, 100, 0, 100, 700, 0, 100⟩, ⟨1, 6, 100, 0, 100, 600, 0, 100⟩,
   ⟨1, 7, 100, 0, 100, 500, 0, 100⟩, ⟨1, 8, 100, 0, 100, 400, 0, 100⟩,
   ⟨1, 9, 100, 0, 100, 300, 0, 100⟩, ⟨1, 10, 100, 0, 100, 200, 0, 100⟩,
   ⟨1, 11, 100, 0, 100, 100, 0, 100⟩, ⟨1, 12, 100, 0, 100, 0, 0, 100⟩]

/-- Straight-line repaid fraction of the loan after `i` elapsed years as
the ownership loop computes it (`prosent_nedbetalt`; zero at year 0). -/
def prosent_nedbetalt (laanebelop : ℚ) (nedbetalingstid : ℕ) (i : ℕ) : ℚ :=
  if i = 0 then 0
  else if 0 < laanebelop then
    min (laanebelop / ((nedbetalingstid : ℚ) * 12) * 12 * i) laanebelop / laanebelop
  else 1

/-- Both settlement shares of a proportional split by a positive total sum
to the full amount. -/
lemma sum_div_cancel (netto a b : ℚ) (h : 0 < a + b) :
    netto * (a / (a + b)) + netto * (b / (a + b)) = netto := by
  have hne : a + b ≠ 0 := ne_of_gt h
  field_simp
  ring

/-- Investment-recovery-first with the surplus split by equity shares over
a positive total equity sums to the full net proceeds. -/
lemma recover_gain_sum (netto ta tb ea ek : ℚ) (h : 0 < ek) :
    ta + (netto - (ta + tb)) * (ea / ek) +
      (tb + (netto - (ta + tb)) * ((ek - ea) / ek)) = netto := by
  have hne : ek ≠ 0 := ne_of_gt h
  field_simp
  ring

/-- C1: for each of the four settlement models and every input (property
price, appreciation percent, selling-cost percent, outstanding balance,
equities and allocated principal), the two payouts sum exactly to the net
proceeds, including when the net proceeds are negative. -/
theorem settlement_payouts_sum_to_net_proceeds (modell : Fordelingsmodell)
    (boligpris verdiendring_prosent salgskostnader_prosent gjenstaaende_laan
     egenkapital egenkapital_a nedbetalt_a nedbetalt_b : ℚ) :
    (utbetalinger modell boligpris verdiendring_prosent salgskostnader_prosent
        gjenstaaende_laan egenkapital egenkapital_a nedbetalt_a nedbetalt_b).1 +
      (utbetalinger modell boligpris verdiendring_prosent salgskostnader_prosent
        gjenstaaende_laan egenkapital egenkapital_a nedbetalt_a nedbetalt_b).2 =
    netto_salgssum boligpris verdiendring_prosent salgskostnader_prosent
      gjenstaaende_laan := by
  cases modell <;>
    simp only [utbetalinger] <;>
    split_ifs <;>
    first
      | ring1
      | (rename_i h
         first
           | exact sum_div_cancel _ _ _ h
           | exact recover_gain_sum _ _ _ _ _ h)

/-- C2 (counterexample): with price 100, appreciation 0 percent, selling
costs 0 percent, outstanding balance 10, total equity 10 all from party A,
and principal 0 / 10 for A / B, the net proceeds (90) exceed the total
investment (20), yet the code's Hybrid model pays (45, 45) — the
proportional-by-investment split — while the spec-worded switch keyed on
`netProceeds - totalInvested` would pay (80, 10).  The code keys the
Hybrid switch on the appreciation sign instead. -/
theorem hybrid_switch_counterexample :
    (10 : ℚ) + 10 < netto_salgssum 100 0 0 10 ∧
    utbetalinger .modell4 100 0 0 10 10 10 0 10 = (45, 45) ∧
    utbetalingerSpecHybrid 100 0 0 10 10 10 0 10 = (80, 10) ∧
    utbetalinger .modell4 100 0 0 10 10 10 0 10 ≠
      utbetalingerSpecHybrid 100 0 0 10 10 10 0 10 := by
  have h1 : utbetalinger .modell4 100 0 0 10 10 10 0 10 = (45, 45) := by
    norm_num [utbetalinger, netto_salgssum]
  have h2 : utbetalingerSpecHybrid 100 0 0 10 10 10 0 10 = (80, 10) := by
    norm_num [utbetalingerSpecHybrid, netto_salgssum]
  refine ⟨by norm_num [netto_salgssum], h1, h2, ?_⟩
  rw [h1, h2]
  norm_num

/-- C2 (amended): the Hybrid model's switch is keyed on the sign of the
appreciation `verdiendring_kr = salgspris - boligpris`, not on
`netProceeds - totalInvested`: for every input it returns exactly the
Modell 2 (equity-proportional, investment recovered first) payouts when
the appreciation is positive and exactly the Modell 1
(proportional-by-total-investment) payouts otherwise. -/
theorem hybrid_keyed_on_appreciation_sign
    (boligpris verdiendring_prosent salgskostnader_prosent gjenstaaende_laan
     egenkapital egenkapital_a nedbetalt_a nedbetalt_b : ℚ) :
    utbetalinger .modell4 boligpris verdiendring_prosent salgskostnader_prosent
        gjenstaaende_laan egenkapital egenkapital_a nedbetalt_a nedbetalt_b =
      if 0 < boligpris * (1 + verdiendring_prosent / 100) - boligpris then
        utbetalinger .modell2 boligpris verdiendring_prosent salgskostnader_prosent
          gjenstaaende_laan egenkapital egenkapital_a nedbetalt_a nedbetalt_b
      else
        utbetalinger .modell1 boligpris verdiendring_prosent salgskostnader_prosent
          gjenstaaende_laan egenkapital egenkapital_a nedbetalt_a nedbetalt_b := rfl

/-- C3 (counterexample): with amount 100 and both incomes 0, the
income-proportional policy returns (0, 0), whose sum 0 is not the amount
100. -/
theorem fordeling_zero_income_counterexample :
    beregn_fordeling 100 0 0 "Proporsjonal etter inntekt" none = some (0, 0) ∧
    (0 : ℚ) + 0 ≠ 100 := by
  constructor
  · unfold beregn_fordeling
    rw [if_neg (by decide : ¬("Proporsjonal etter inntekt" : String) = "50/50"),
      if_pos (rfl : ("Proporsjonal etter inntekt" : String) = _),
      if_pos (by norm_num : (0 : ℚ) + 0 = 0)]
  · norm_num

/-- C3 (amended): whenever the two incomes do not sum to zero, every
policy (equal split, income-proportional, custom percentage with any
given percentage, and the fallback) returns shares summing exactly to the
amount; in the degenerate income-proportional case with zero total income
the function instead returns (0, 0). -/
theorem fordeling_sum_amended :
    (∀ (total_kostnad inntekt_a inntekt_b : ℚ) (fordeling_type : String) (c : ℚ),
      inntekt_a + inntekt_b ≠ 0 →
      ∀ sa sb : ℚ,
        beregn_fordeling total_kostnad inntekt_a inntekt_b fordeling_type (some c) =
          some (sa, sb) →
        sa + sb = total_kostnad) ∧
    (∀ (total_kostnad inntekt_a inntekt_b : ℚ) (custom_split : Option ℚ),
      inntekt_a + inntekt_b = 0 →
      beregn_fordeling total_kostnad inntekt_a inntekt_b "Proporsjonal etter inntekt"
        custom_split = some (0, 0)) := by
  constructor
  · intro total ia ib ftype c hinc sa sb h
    simp only [beregn_fordeling] at h
    split_ifs at h with h1 h2 h3 <;>
      simp only [Option.some.injEq, Prod.mk.injEq] at h <;>
      obtain ⟨hsa, hsb⟩ := h <;>
      subst hsa <;> subst hsb <;> ring
  · intro total ia ib cs hzero
    unfold beregn_fordeling
    rw [if_neg (by decide : ¬("Proporsjonal etter inntekt" : String) = "50/50"),
      if_pos (rfl : ("Proporsjonal etter inntekt" : String) = _), if_pos hzero]

/-- C3 (witness for the amended theorem): concrete instance with incomes
1 and 2 under the income-proportional policy. -/
theorem fordeling_sum_amended_witness :
    (1 : ℚ) + 2 ≠ 0 ∧
    beregn_fordeling 100 1 2 "Proporsjonal etter inntekt" (some 30) =
      some (100 * (1 / (1 + 2)), 100 * (1 - 1 / (1 + 2))) ∧
    100 * ((1 : ℚ) / (1 + 2)) + 100 * (1 - 1 / (1 + 2)) = 100 := by
  have heval : beregn_fordeling 100 1 2 "Proporsjonal etter inntekt" (some 30) =
      some (100 * (1 / (1 + 2)), 100 * (1 - 1 / (1 + 2))) := by
    unfold beregn_fordeling
    rw [if_neg (by decide : ¬("Proporsjonal etter inntekt" : String) = "50/50"),
      if_pos (rfl : ("Proporsjonal etter inntekt" : String) = _),
      if_neg (by norm_num : ¬((1 : ℚ) + 2 = 0))]
  refine ⟨by norm_num, heval, ?_⟩
  exact fordeling_sum_amended.1 100 1 2 "Proporsjonal etter inntekt" 30 (by norm_num)
    _ _ heval

/-- C9: a policy string that is none of the three recognised ones makes
`beregn_fordeling` silently fall back to an equal split — no error is
raised and the result is (amount/2, amount/2). -/
theorem fordeling_unknown_policy_fallback
    (total_kostnad inntekt_a inntekt_b : ℚ) (fordeling_type : String)
    (custom_split : Option ℚ)
    (h1 : fordeling_type ≠ "50/50")
    (h2 : fordeling_type ≠ "Proporsjonal etter inntekt")
    (h3 : fordeling_type ≠ "Egendefinert") :
    beregn_fordeling total_kostnad inntekt_a inntekt_b fordeling_type custom_split =
      some (total_kostnad / 2, total_kostnad / 2) := by
  simp only [beregn_fordeling, if_neg h1, if_neg h2, if_neg h3]

/-- C9 (witness): the unknown policy string "ukjent" with amount 10. -/
theorem fordeling_unknown_policy_fallback_witness :
    ("ukjent" ≠ "50/50" ∧ "ukjent" ≠ "Proporsjonal etter inntekt" ∧
      "ukjent" ≠ "Egendefinert") ∧
    beregn_fordeling 10 1 2 "ukjent" none = some (10 / 2, 10 / 2) :=
  ⟨⟨by decide, by decide, by decide⟩,
    fordeling_unknown_policy_fallback 10 1 2 "ukjent" none (by decide) (by decide)
      (by decide)⟩

/-- C10: the three table-based forecast policies ignore the base rate —
two calls with the same policy and different base rates give identical
(year, rate) tables — while each legacy policy (lav, moderat, høy) does
depend on the base rate. -/
theorem forecast_table_policies_ignore_base_rate :
    (∀ b1 b2 : ℚ,
      generer_renteprognose b1 "norges_bank" = generer_renteprognose b2 "norges_bank") ∧
    (∀ b1 b2 : ℚ,
      generer_renteprognose b1 "optimistisk" = generer_renteprognose b2 "optimistisk") ∧
    (∀ b1 b2 : ℚ,
      generer_renteprognose b1 "pessimistisk" = generer_renteprognose b2 "pessimistisk") ∧
    generer_renteprognose 3 "lav" ≠ generer_renteprognose 5 "lav" ∧
    generer_renteprognose 3 "moderat" ≠ generer_renteprognose 5 "moderat" ∧
    generer_renteprognose 3 "høy" ≠ generer_renteprognose 5 "høy" :=
  ⟨fun _ _ => rfl, fun _ _ => rfl, fun _ _ => rfl,
    by
      norm_num [generer_renteprognose, legacyRenteLoop, List.range_succ,
        styringsrente_prognose, List.zip_cons_cons,
        show ¬("lav" : String) = "norges_bank" by decide,
        show ¬("lav" : String) = "optimistisk" by decide,
        show ¬("lav" : String) = "pessimistisk" by decide],
    by
      norm_num [generer_renteprognose, legacyRenteLoop, List.range_succ,
        styringsrente_prognose, List.zip_cons_cons,
        show ¬("moderat" : String) = "norges_bank" by decide,
        show ¬("moderat" : String) = "optimistisk" by decide,
        show ¬("moderat" : String) = "pessimistisk" by decide,
        show ¬("moderat" : String) = "lav" by decide],
    by
      norm_num [generer_renteprognose, legacyRenteLoop, List.range_succ,
        styringsrente_prognose, List.zip_cons_cons,
        show ¬("høy" : String) = "norges_bank" by decide,
        show ¬("høy" : String) = "optimistisk" by decide,
        show ¬("høy" : String) = "pessimistisk" by decide,
        show ¬("høy" : String) = "lav" by decide,
        show ¬("høy" : String) = "moderat" by decide]⟩

/-- C7 (counterexample): at principal 1,000,000, rate 12 percent and term
-1 years, `beregn_terminbelop` raises no error and returns a finite —
and negative, hence silently nonsensical — payment, contradicting the
claim that it fails for every non-positive term. -/
theorem terminbelop_negative_term_counterexample :
    beregn_terminbelop 1000000 12 (-1) =
      some (-10000000000000000000000000000 / 126825030131969720661201) ∧
    (-10000000000000000000000000000 : ℚ) / 126825030131969720661201 < 0 := by
  constructor
  · norm_num [beregn_terminbelop]
  · norm_num

/-- C7 (amended): `beregn_terminbelop` fails (Python `ZeroDivisionError`,
modelled as `none`) exactly at term 0, for every principal and rate; but
for every strictly negative term with positive principal and positive
rate it returns a finite, negative payment instead of failing. -/
theorem terminbelop_zero_and_negative_term :
    (∀ laan rente : ℚ, beregn_terminbelop laan rente 0 = none) ∧
    (∀ (laan rente : ℚ) (n : ℤ), 0 < laan → 0 < rente → n < 0 →
      ∃ T, beregn_terminbelop laan rente n = some T ∧ T < 0) := by
  constructor
  · intro laan rente
    by_cases hr : rente = 0
    · simp [beregn_terminbelop, hr]
    · simp [beregn_terminbelop, hr]
  · intro laan rente n hl hr hn
    have hr0 : rente ≠ 0 := ne_of_gt hr
    have hmr : (0 : ℚ) < rente / 100 / 12 := by positivity
    have hbne : (1 : ℚ) + rente / 100 / 12 ≠ 0 := by linarith
    have h12 : (n * 12 : ℤ) < 0 := by omega
    have hq0 : (0 : ℚ) < (1 + rente / 100 / 12) ^ (n * 12 : ℤ) :=
      zpow_pos (by linarith) _
    have hq1 : (1 + rente / 100 / 12) ^ (n * 12 : ℤ) < 1 :=
      zpow_lt_one_of_neg₀ (by linarith) h12
    have hden : (1 + rente / 100 / 12) ^ (n * 12 : ℤ) - 1 ≠ 0 :=
      sub_ne_zero.mpr (ne_of_lt hq1)
    refine ⟨laan * ((rente / 100 / 12) * (1 + rente / 100 / 12) ^ (n * 12 : ℤ)) /
        ((1 + rente / 100 / 12) ^ (n * 12 : ℤ) - 1), ?_, ?_⟩
    · simp only [beregn_terminbelop, if_neg hr0]
      rw [if_neg (fun hand => hbne hand.1), if_neg hden]
    · exact div_neg_of_pos_of_neg
        (by positivity)
        (by linarith)

/-- C7 (witness for the amended theorem): principal 5, rate 6 percent,
term -2 years. -/
theorem terminbelop_zero_and_negative_term_witness :
    (0 : ℚ) < 5 ∧ (0 : ℚ) < 6 ∧ (-2 : ℤ) < 0 ∧
    (∃ T, beregn_terminbelop 5 6 (-2) = some T ∧ T < 0) :=
  ⟨by norm_num, by norm_num, by norm_num,
    terminbelop_zero_and_negative_term.2 5 6 (-2) (by norm_num) (by norm_num)
      (by norm_num)⟩

lemma amortLoop_nonpos (r T : ℚ) (mnd fuel : ℕ) (b : ℚ) (h : b ≤ 0) :
    amortLoop r T mnd (fuel + 1) b = [] := by
  simp [amortLoop, h]

lemma amortLoop_cons (r T : ℚ) (mnd fuel : ℕ) (b : ℚ) (h : ¬b ≤ 0) :
    amortLoop r T mnd (fuel + 1) b =
      ⟨mnd / 12 + 1, mnd % 12 + 1, T, b * r, T - b * r, max 0 (amortStep r T b),
        b * r * SKATTESATS_RENTEFRADRAG, T - b * r * SKATTESATS_RENTEFRADRAG⟩ ::
      amortLoop r T (mnd + 1) fuel (amortStep r T b) := by
  simp [amortLoop, h, amortStep]

lemma amortLoop_ne_nil_pos (r T : ℚ) (mnd fuel : ℕ) (b : ℚ)
    (h : amortLoop r T mnd fuel b ≠ []) : 0 < b := by
  cases fuel with
  | zero => simp [amortLoop] at h
  | succ m =>
    by_contra hb
    exact h (amortLoop_nonpos r T mnd m b (not_lt.mp hb))

lemma amortLoop_sumAvdrag (r T : ℚ) : ∀ (fuel mnd : ℕ) (b : ℚ),
    sumAvdrag (amortLoop r T mnd fuel b) = b - amortFinal r T fuel b := by
  intro fuel
  induction fuel with
  | zero => intro mnd b; simp [amortLoop, sumAvdrag, amortFinal]
  | succ m ih =>
    intro mnd b
    by_cases h : b ≤ 0
    · rw [amortLoop_nonpos r T mnd m b h]
      simp [sumAvdrag, amortFinal, h]
    · rw [amortLoop_cons r T mnd m b h]
      simp only [sumAvdrag, List.map_cons, List.sum_cons]
      rw [show ((amortLoop r T (mnd + 1) m (amortStep r T b)).map Rad.avdrag).sum =
        sumAvdrag (amortLoop r T (mnd + 1) m (amortStep r T b)) from rfl]
      rw [ih (mnd + 1) (amortStep r T b)]
      rw [show amortFinal r T (m + 1) b =
        amortFinal r T m (amortStep r T b) from by simp [amortFinal, h]]
      rw [amortStep]
      ring

lemma amortLoop_full_length (r T : ℚ) : ∀ (fuel mnd : ℕ) (b : ℚ),
    (∀ k : ℕ, k < fuel → 0 < (amortStep r T)^[k] b) →
    (amortLoop r T mnd fuel b).length = fuel := by
  intro fuel
  induction fuel with
  | zero => intro mnd b _; simp [amortLoop]
  | succ m ih =>
    intro mnd b hpos
    have hb : 0 < b := by simpa using hpos 0 (Nat.succ_pos m)
    rw [amortLoop_cons r T mnd m b (not_le.mpr hb), List.length_cons]
    rw [ih (mnd + 1) (amortStep r T b) (fun k hk => by
      simpa [Function.iterate_succ_apply] using hpos (k + 1) (Nat.succ_lt_succ hk))]

lemma amortFinal_run (r T : ℚ) : ∀ (fuel : ℕ) (b : ℚ),
    (∀ k : ℕ, k < fuel → 0 < (amortStep r T)^[k] b) →
    amortFinal r T fuel b = (amortStep r T)^[fuel] b := by
  intro fuel
  induction fuel with
  | zero => intro b _; rfl
  | succ m ih =>
    intro b hpos
    have hb : 0 < b := by simpa using hpos 0 (Nat.succ_pos m)
    rw [show amortFinal r T (m + 1) b =
      amortFinal r T m (amortStep r T b) from by simp [amortFinal, not_le.mpr hb]]
    rw [ih (amortStep r T b) (fun k hk => by
      simpa [Function.iterate_succ_apply] using hpos (k + 1) (Nat.succ_lt_succ hk))]
    exact (Function.iterate_succ_apply (amortStep r T) m b).symm

lemma iterate_amortStep (r T : ℚ) (hr : r ≠ 0) (b : ℚ) :
    ∀ k : ℕ, (amortStep r T)^[k] b = (b - T / r) * (1 + r) ^ k + T / r := by
  intro k
  induction k with
  | zero => simp
  | succ m ih =>
    rw [Function.iterate_succ_apply', ih, amortStep]
    field_simp
    ring

lemma iterate_amortStep_zero (T : ℚ) (b : ℚ) :
    ∀ k : ℕ, (amortStep 0 T)^[k] b = b - k * T := by
  intro k
  induction k with
  | zero => simp
  | succ m ih =>
    rw [Function.iterate_succ_apply', ih, amortStep]
    push_cast
    ring

/-- Exact balance after `k` months of the annuity loop started at the full
principal, when the payment is the annuity payment for `n` months. -/
lemma annuity_balance_formula (laan r : ℚ) (n : ℕ) (hr : 0 < r) (hn : 0 < n) (k : ℕ) :
    (amortStep r (laan * (r * (1 + r) ^ n) / ((1 + r) ^ n - 1)))^[k] laan =
      laan * ((1 + r) ^ n - (1 + r) ^ k) / ((1 + r) ^ n - 1) := by
  have h1 : (1 : ℚ) < 1 + r := by linarith
  have hq : (1 : ℚ) < (1 + r) ^ n := one_lt_pow₀ h1 (Nat.pos_iff_ne_zero.mp hn)
  have hqne : (1 + r) ^ n - 1 ≠ 0 := ne_of_gt (by linarith)
  rw [iterate_amortStep _ _ (ne_of_gt hr)]
  field_simp
  ring

/-- C4: for every principal P > 0, annual rate >= 0 and term n > 0 years,
the amortization plan built with horizon equal to the full term has
exactly n*12 periods (in particular finitely many) and its principal
portions sum exactly to P. -/
theorem amortization_full_term_principal_sums_to_principal
    (laan rente : ℚ) (nedbetalingstid_aar : ℕ)
    (hlaan : 0 < laan) (hrente : 0 ≤ rente) (hned : 0 < nedbetalingstid_aar) :
    ∃ plan : List Rad,
      beregn_amortiseringsplan laan rente nedbetalingstid_aar
        (some nedbetalingstid_aar) = some plan ∧
      plan.length = nedbetalingstid_aar * 12 ∧
      sumAvdrag plan = laan := by
  by_cases hr0 : rente = 0
  · subst hr0
    have hnq : (0 : ℚ) < (nedbetalingstid_aar : ℚ) := by exact_mod_cast hned
    have hcast : (((nedbetalingstid_aar : ℤ) * 12 : ℤ) : ℚ) = (nedbetalingstid_aar : ℚ) * 12 := by
      push_cast
      ring
    have hn12 : (0 : ℚ) < (nedbetalingstid_aar : ℚ) * 12 := by linarith
    have hT : beregn_terminbelop laan 0 (nedbetalingstid_aar : ℤ) =
        some (laan / (((nedbetalingstid_aar : ℤ) * 12 : ℤ) : ℚ)) := by
      unfold beregn_terminbelop
      rw [if_pos rfl, if_neg (by rw [hcast]; exact ne_of_gt hn12)]
    have hplan : beregn_amortiseringsplan laan 0 nedbetalingstid_aar
        (some nedbetalingstid_aar) =
        some (amortLoop ((0 : ℚ) / 100 / 12) (laan / (((nedbetalingstid_aar : ℤ) * 12 : ℤ) : ℚ))
          0 (nedbetalingstid_aar * 12) laan) := by
      unfold beregn_amortiseringsplan
      rw [hT]
      rfl
    have hfun : amortStep ((0 : ℚ) / 100 / 12)
        (laan / (((nedbetalingstid_aar : ℤ) * 12 : ℤ) : ℚ)) =
        amortStep 0 (laan / (((nedbetalingstid_aar : ℤ) * 12 : ℤ) : ℚ)) := by
      norm_num
    have hpos : ∀ k : ℕ, k < nedbetalingstid_aar * 12 →
        0 < (amortStep ((0 : ℚ) / 100 / 12)
          (laan / (((nedbetalingstid_aar : ℤ) * 12 : ℤ) : ℚ)))^[k] laan := by
      intro k hk
      rw [hfun, iterate_amortStep_zero, hcast]
      have hkq : (k : ℚ) < (nedbetalingstid_aar : ℚ) * 12 := by
        exact_mod_cast hk
      have hklt : (k : ℚ) * (laan / ((nedbetalingstid_aar : ℚ) * 12)) < laan := by
        rw [← mul_div_assoc, div_lt_iff₀ hn12]
        nlinarith [mul_lt_mul_of_pos_left hkq hlaan]
      linarith
    have hfin : (amortStep ((0 : ℚ) / 100 / 12)
        (laan / (((nedbetalingstid_aar : ℤ) * 12 : ℤ) : ℚ)))^[nedbetalingstid_aar * 12] laan = 0 := by
      rw [hfun, iterate_amortStep_zero, hcast]
      push_cast
      field_simp
    refine ⟨_, hplan, ?_, ?_⟩
    · exact amortLoop_full_length _ _ _ _ _ hpos
    · rw [amortLoop_sumAvdrag, amortFinal_run _ _ _ _ hpos, hfin, sub_zero]
  · have hrp : 0 < rente := lt_of_le_of_ne hrente (Ne.symm hr0)
    have hr : (0 : ℚ) < rente / 100 / 12 := by positivity
    have h1 : (1 : ℚ) < 1 + rente / 100 / 12 := by linarith
    have hn12 : ((nedbetalingstid_aar : ℤ) * 12) = ((nedbetalingstid_aar * 12 : ℕ) : ℤ) := by
      push_cast
      ring
    have hzp : (1 + rente / 100 / 12) ^ ((nedbetalingstid_aar : ℤ) * 12) =
        (1 + rente / 100 / 12) ^ (nedbetalingstid_aar * 12 : ℕ) := by
      rw [hn12, zpow_natCast]
    have hq1 : 1 < (1 + rente / 100 / 12) ^ (nedbetalingstid_aar * 12 : ℕ) :=
      one_lt_pow₀ h1 (by omega)
    have hqne : (1 + rente / 100 / 12) ^ (nedbetalingstid_aar * 12 : ℕ) - 1 ≠ 0 :=
      ne_of_gt (by linarith)
    have hT : beregn_terminbelop laan rente (nedbetalingstid_aar : ℤ) =
        some (laan * (rente / 100 / 12 *
            (1 + rente / 100 / 12) ^ (nedbetalingstid_aar * 12 : ℕ)) /
          ((1 + rente / 100 / 12) ^ (nedbetalingstid_aar * 12 : ℕ) - 1)) := by
      unfold beregn_terminbelop
      rw [if_neg hr0]
      simp only [hzp]
      rw [if_neg (fun hand => absurd hand.1 (by linarith)), if_neg hqne]
    have hplan : beregn_amortiseringsplan laan rente nedbetalingstid_aar
        (some nedbetalingstid_aar) =
        some (amortLoop (rente / 100 / 12)
          (laan * (rente / 100 / 12 *
              (1 + rente / 100 / 12) ^ (nedbetalingstid_aar * 12 : ℕ)) /
            ((1 + rente / 100 / 12) ^ (nedbetalingstid_aar * 12 : ℕ) - 1))
          0 (nedbetalingstid_aar * 12) laan) := by
      unfold beregn_amortiseringsplan
      rw [hT]
      rfl
    have hpos : ∀ k : ℕ, k < nedbetalingstid_aar * 12 →
        0 < (amortStep (rente / 100 / 12)
          (laan * (rente / 100 / 12 *
              (1 + rente / 100 / 12) ^ (nedbetalingstid_aar * 12 : ℕ)) /
            ((1 + rente / 100 / 12) ^ (nedbetalingstid_aar * 12 : ℕ) - 1)))^[k] laan := by
      intro k hk
      rw [annuity_balance_formula laan (rente / 100 / 12) (nedbetalingstid_aar * 12) hr
        (by omega) k]
      exact div_pos (mul_pos hlaan (sub_pos.mpr (pow_lt_pow_right₀ h1 hk)))
        (by linarith)
    have hfin : (amortStep (rente / 100 / 12)
        (laan * (rente / 100 / 12 *
            (1 + rente / 100 / 12) ^ (nedbetalingstid_aar * 12 : ℕ)) /
          ((1 + rente / 100 / 12) ^ (nedbetalingstid_aar * 12 : ℕ) - 1)))^[nedbetalingstid_aar * 12]
        laan = 0 := by
      rw [annuity_balance_formula laan (rente / 100 / 12) (nedbetalingstid_aar * 12) hr
        (by omega) (nedbetalingstid_aar * 12)]
      simp
    refine ⟨_, hplan, ?_, ?_⟩
    · exact amortLoop_full_length _ _ _ _ _ hpos
    · rw [amortLoop_sumAvdrag, amortFinal_run _ _ _ _ hpos, hfin, sub_zero]

/-- C4 (witness): principal 1200, rate 0, term 1 year. -/
theorem amortization_full_term_principal_sums_witness :
    (0 : ℚ) < 1200 ∧ (0 : ℚ) ≤ 0 ∧ 0 < 1 ∧
    ∃ plan : List Rad,
      beregn_amortiseringsplan 1200 0 1 (some 1) = some plan ∧
      plan.length = 1 * 12 ∧ sumAvdrag plan = 1200 :=
  ⟨by norm_num, by norm_num, by norm_num,
    amortization_full_term_principal_sums_to_principal 1200 0 1 (by norm_num)
      (by norm_num) (by norm_num)⟩

lemma amortLoop_invariants (r T : ℚ) : ∀ (fuel mnd : ℕ) (b : ℚ),
    (∀ e ∈ amortLoop r T mnd fuel b, e.avdrag + e.renter = T ∧ e.terminbelop = T) ∧
    (∀ e ∈ (amortLoop r T mnd fuel b).head?,
      e.renter = b * r ∧ e.gjenstaaende = max 0 (b - e.avdrag)) ∧
    List.Chain' (radChain r) (amortLoop r T mnd fuel b) := by
  intro fuel
  induction fuel with
  | zero =>
    intro mnd b
    refine ⟨?_, ?_, ?_⟩ <;> simp [amortLoop]
  | succ m ih =>
    intro mnd b
    by_cases hb : b ≤ 0
    · rw [amortLoop_nonpos r T mnd m b hb]
      refine ⟨?_, ?_, ?_⟩ <;> simp
    · rw [amortLoop_cons r T mnd m b hb]
      refine ⟨?_, ?_, ?_⟩
      · intro e he
        rcases List.mem_cons.mp he with he0 | herest
        · subst he0
          constructor
          · show T - b * r + b * r = T
            ring
          · rfl
        · exact (ih (mnd + 1) (amortStep r T b)).1 e herest
      · intro e he
        simp only [List.head?_cons, Option.mem_def, Option.some.injEq] at he
        subst he
        exact ⟨rfl, by show max 0 (amortStep r T b) = max 0 (b - (T - b * r)); rfl⟩
      · rw [List.chain'_cons']
        refine ⟨?_, (ih (mnd + 1) (amortStep r T b)).2.2⟩
        intro y hy
        have hne : amortLoop r T (mnd + 1) m (amortStep r T b) ≠ [] := by
          intro hnil
          rw [hnil] at hy
          simp at hy
        have hb2 : 0 < amortStep r T b :=
          amortLoop_ne_nil_pos r T (mnd + 1) m (amortStep r T b) hne
        obtain ⟨hy1, hy2⟩ := (ih (mnd + 1) (amortStep r T b)).2.1 y hy
        have hmax : max 0 (amortStep r T b) = amortStep r T b :=
          max_eq_right (le_of_lt hb2)
        constructor
        · show y.renter = max 0 (amortStep r T b) * r
          rw [hmax, hy1]
        · show y.gjenstaaende = max 0 (max 0 (amortStep r T b) - y.avdrag)
          rw [hmax, hy2]

/-- C5: in every amortization plan the source produces, every period's
principal and interest sum to the fixed payment (with the payment also
recorded in the row), the first period's interest is the full principal
times the monthly rate with its balance floored at zero, and every later
period's interest equals the previous recorded balance times the monthly
rate while its recorded balance is the previous balance minus the
period's principal, floored at zero. -/
theorem amortization_period_invariants
    (laan rente : ℚ) (nedbetalingstid_aar : ℕ) (antall_aar : Option ℕ)
    (terminbelop : ℚ) (plan : List Rad)
    (hT : beregn_terminbelop laan rente (nedbetalingstid_aar : ℤ) = some terminbelop)
    (hplan : beregn_amortiseringsplan laan rente nedbetalingstid_aar antall_aar =
      some plan) :
    (∀ e ∈ plan, e.avdrag + e.renter = terminbelop ∧ e.terminbelop = terminbelop) ∧
    (∀ e ∈ plan.head?,
      e.renter = laan * (rente / 100 / 12) ∧
      e.gjenstaaende = max 0 (laan - e.avdrag)) ∧
    (∀ (i : ℕ) (h : i + 1 < plan.length),
      (plan.get ⟨i + 1, h⟩).renter =
        (plan.get ⟨i, Nat.lt_of_succ_lt h⟩).gjenstaaende * (rente / 100 / 12) ∧
      (plan.get ⟨i + 1, h⟩).gjenstaaende =
        max 0 ((plan.get ⟨i, Nat.lt_of_succ_lt h⟩).gjenstaaende -
          (plan.get ⟨i + 1, h⟩).avdrag)) := by
  have hplan2 : plan = amortLoop (rente / 100 / 12) terminbelop 0
      (((antall_aar.getD (min 10 nedbetalingstid_aar))) * 12) laan := by
    unfold beregn_amortiseringsplan at hplan
    rw [hT] at hplan
    simpa using hplan.symm
  subst hplan2
  obtain ⟨h1, h2, h3⟩ := amortLoop_invariants (rente / 100 / 12) terminbelop
    ((antall_aar.getD (min 10 nedbetalingstid_aar)) * 12) 0 laan
  refine ⟨h1, h2, ?_⟩
  intro i h
  exact List.chain'_iff_get.mp h3 i (by omega)

/-- C5 (witness): the plan for principal 1200, rate 0, term 1 year,
checked between its first two periods. -/
theorem amortization_period_invariants_witness :
    beregn_terminbelop 1200 0 (1 : ℤ) = some 100 ∧
    beregn_amortiseringsplan 1200 0 1 none = some plan12 ∧
    ((plan12.get ⟨1, by norm_num [plan12]⟩).renter =
      (plan12.get ⟨0, by norm_num [plan12]⟩).gjenstaaende * ((0 : ℚ) / 100 / 12) ∧
     (plan12.get ⟨1, by norm_num [plan12]⟩).gjenstaaende =
      max 0 ((plan12.get ⟨0, by norm_num [plan12]⟩).gjenstaaende -
        (plan12.get ⟨1, by norm_num [plan12]⟩).avdrag)) := by
  have hT : beregn_terminbelop 1200 0 (1 : ℤ) = some 100 := by
    norm_num [beregn_terminbelop]
  have hplan : beregn_amortiseringsplan 1200 0 1 none = some plan12 := by
    norm_num [beregn_amortiseringsplan, beregn_terminbelop, amortLoop, plan12,
      SKATTESATS_RENTEFRADRAG]
  exact ⟨hT, hplan,
    (amortization_period_invariants 1200 0 1 none 100 plan12 hT hplan).2.2 0
      (by norm_num [plan12])⟩

lemma terminbelop_zero_rate (laan : ℚ) (n : ℕ) (hn : 0 < n) :
    beregn_terminbelop laan 0 (n : ℤ) = some (laan / ((n : ℚ) * 12)) := by
  have hnq : (0 : ℚ) < (n : ℚ) := by exact_mod_cast hn
  have hcast : (((n : ℤ) * 12 : ℤ) : ℚ) = (n : ℚ) * 12 := by
    push_cast
    ring
  unfold beregn_terminbelop
  rw [if_pos rfl, if_neg (by rw [hcast]; exact ne_of_gt (by linarith)), hcast]

lemma terminbelop_pos_rate (laan rente : ℚ) (n : ℕ) (hrp : 0 < rente) (hn : 0 < n) :
    beregn_terminbelop laan rente (n : ℤ) =
      some (laan * (rente / 100 / 12 * (1 + rente / 100 / 12) ^ (n * 12 : ℕ)) /
        ((1 + rente / 100 / 12) ^ (n * 12 : ℕ) - 1)) := by
  have hr : (0 : ℚ) < rente / 100 / 12 := by positivity
  have h1 : (1 : ℚ) < 1 + rente / 100 / 12 := by linarith
  have hzp : (1 + rente / 100 / 12) ^ ((n : ℤ) * 12) =
      (1 + rente / 100 / 12) ^ (n * 12 : ℕ) := by
    rw [show ((n : ℤ) * 12) = ((n * 12 : ℕ) : ℤ) from by push_cast; ring, zpow_natCast]
  have hq1 : 1 < (1 + rente / 100 / 12) ^ (n * 12 : ℕ) := one_lt_pow₀ h1 (by omega)
  unfold beregn_terminbelop
  rw [if_neg (ne_of_gt hrp)]
  simp only [hzp]
  rw [if_neg (fun hand => absurd hand.1 (by linarith)),
    if_neg (ne_of_gt (by linarith))]

/-- C6: the fixed payment is `laan/(12n)` at rate 0 and the annuity
formula otherwise; concretely, at principal 3,200,000, rate 4.99 percent
and term 25 years, the payment is between 18,688 and 18,689 kroner and
the first scheduled month has interest within 1 of 13,307 and principal
within 1 of 5,381. -/
theorem terminbelop_formula_and_concrete_scenario :
    (∀ (laan rente : ℚ) (n : ℕ), 0 < n → 0 ≤ rente →
      beregn_terminbelop laan rente (n : ℤ) =
        (if rente = 0 then some (laan / ((n : ℚ) * 12))
         else some (laan * (rente / 100 / 12 *
             (1 + rente / 100 / 12) ^ (n * 12 : ℕ)) /
           ((1 + rente / 100 / 12) ^ (n * 12 : ℕ) - 1)))) ∧
    (∃ T : ℚ, beregn_terminbelop 3200000 (499 / 100) (25 : ℤ) = some T ∧
      18688 < T ∧ T < 18689) ∧
    (∃ plan : List Rad, ∃ e : Rad,
      beregn_amortiseringsplan 3200000 (499 / 100) 25 none = some plan ∧
      plan.head? = some e ∧
      13306 < e.renter ∧ e.renter < 13308 ∧
      5381 < e.avdrag ∧ e.avdrag < 5382) := by
  have hT := terminbelop_pos_rate 3200000 (499 / 100) 25 (by norm_num) (by norm_num)
  have hTlb : (186882 / 10 : ℚ) <
      3200000 * (499 / 100 / 100 / 12 * (1 + 499 / 100 / 100 / 12) ^ (25 * 12 : ℕ)) /
        ((1 + 499 / 100 / 100 / 12) ^ (25 * 12 : ℕ) - 1) := by
    norm_num
  have hTub : 3200000 * (499 / 100 / 100 / 12 *
        (1 + 499 / 100 / 100 / 12) ^ (25 * 12 : ℕ)) /
        ((1 + 499 / 100 / 100 / 12) ^ (25 * 12 : ℕ) - 1) < (186883 / 10 : ℚ) := by
    norm_num
  refine ⟨?_, ?_, ?_⟩
  · intro laan rente n hn hrente
    by_cases hr0 : rente = 0
    · subst hr0
      rw [if_pos rfl]
      exact terminbelop_zero_rate laan n hn
    · rw [if_neg hr0]
      exact terminbelop_pos_rate laan rente n (lt_of_le_of_ne hrente (Ne.symm hr0)) hn
  · exact ⟨_, hT, by linarith, by linarith⟩
  · have hplan : beregn_amortiseringsplan 3200000 (499 / 100) 25 none =
        some (amortLoop (499 / 100 / 100 / 12)
          (3200000 * (499 / 100 / 100 / 12 *
              (1 + 499 / 100 / 100 / 12) ^ (25 * 12 : ℕ)) /
            ((1 + 499 / 100 / 100 / 12) ^ (25 * 12 : ℕ) - 1))
          0 (119 + 1) 3200000) := by
      unfold beregn_amortiseringsplan
      rw [hT]
      rfl
    rw [amortLoop_cons _ _ _ _ _ (by norm_num)] at hplan
    refine ⟨_, _, hplan, rfl, ?_, ?_, ?_, ?_⟩
    · show (13306 : ℚ) < 3200000 * (499 / 100 / 100 / 12)
      norm_num
    · show (3200000 : ℚ) * (499 / 100 / 100 / 12) < 13308
      norm_num
    · show (5381 : ℚ) < _ - 3200000 * (499 / 100 / 100 / 12)
      linarith
    · show _ - (3200000 : ℚ) * (499 / 100 / 100 / 12) < 5382
      linarith

/-- C6 (witness for the formula conjunct): principal 7, rate 0, term 2. -/
theorem terminbelop_formula_and_concrete_scenario_witness :
    (0 : ℕ) < 2 ∧ (0 : ℚ) ≤ 0 ∧
    beregn_terminbelop 7 0 ((2 : ℕ) : ℤ) =
      (if (0 : ℚ) = 0 then some (7 / (((2 : ℕ) : ℚ) * 12))
       else some (7 * ((0 : ℚ) / 100 / 12 *
           (1 + (0 : ℚ) / 100 / 12) ^ (2 * 12 : ℕ)) /
         ((1 + (0 : ℚ) / 100 / 12) ^ (2 * 12 : ℕ) - 1))) :=
  ⟨by norm_num, by norm_num,
    terminbelop_formula_and_concrete_scenario.1 7 0 2 (by norm_num) (by norm_num)⟩

lemma eierandel_a_closed (egenkapital_a boligpris laanebelop : ℚ)
    (nedbetalingstid : ℕ) (avdrag_andel_a : ℚ) (i : ℕ) :
    eierandel_a_over_tid egenkapital_a boligpris laanebelop nedbetalingstid
        avdrag_andel_a i =
      egenkapital_a / boligpris * 100 +
        laanebelop / boligpris * 100 * avdrag_andel_a *
          prosent_nedbetalt laanebelop nedbetalingstid i := by
  unfold eierandel_a_over_tid prosent_nedbetalt
  by_cases h0 : i = 0
  · simp [h0]
  · simp only [if_neg h0]

lemma prosent_nedbetalt_nonneg (laanebelop : ℚ) (nedbetalingstid : ℕ) (i : ℕ) :
    0 ≤ prosent_nedbetalt laanebelop nedbetalingstid i := by
  unfold prosent_nedbetalt
  split_ifs with h0 hl
  · norm_num
  · exact div_nonneg (le_min (by positivity) (le_of_lt hl)) (le_of_lt hl)
  · norm_num

lemma prosent_nedbetalt_le_one (laanebelop : ℚ) (nedbetalingstid : ℕ) (i : ℕ) :
    prosent_nedbetalt laanebelop nedbetalingstid i ≤ 1 := by
  unfold prosent_nedbetalt
  split_ifs with h0 hl
  · norm_num
  · exact (div_le_one hl).mpr (min_le_right _ _)
  · norm_num

lemma prosent_nedbetalt_mono (laanebelop : ℚ) (nedbetalingstid : ℕ)
    {i j : ℕ} (hij : i ≤ j) :
    prosent_nedbetalt laanebelop nedbetalingstid i ≤
      prosent_nedbetalt laanebelop nedbetalingstid j := by
  by_cases hi : i = 0
  · rw [show prosent_nedbetalt laanebelop nedbetalingstid i = 0 from by
      simp [prosent_nedbetalt, hi]]
    exact prosent_nedbetalt_nonneg laanebelop nedbetalingstid j
  · have hj : j ≠ 0 := by omega
    unfold prosent_nedbetalt
    rw [if_neg hi, if_neg hj]
    by_cases hl : 0 < laanebelop
    · rw [if_pos hl, if_pos hl]
      refine div_le_div_of_nonneg_right ?_ (le_of_lt hl)
      refine min_le_min ?_ (le_refl _)
      exact mul_le_mul_of_nonneg_left (by exact_mod_cast hij) (by positivity)
    · simp [if_neg hl]

lemma eierandel_bounds (ek bp laan : ℚ) (nedb : ℕ) (andel : ℚ) (i : ℕ)
    (hek : 0 ≤ ek) (hbp : 0 < bp) (hlb0 : 0 ≤ laan)
    (ha0 : 0 ≤ andel) (ha1 : andel ≤ 1) :
    0 ≤ eierandel_a_over_tid ek bp laan nedb andel i ∧
    eierandel_a_over_tid ek bp laan nedb andel i ≤ (ek + laan) / bp * 100 := by
  have hp0 := prosent_nedbetalt_nonneg laan nedb i
  have hp1 := prosent_nedbetalt_le_one laan nedb i
  have hcL : 0 ≤ laan / bp * 100 :=
    mul_nonneg (div_nonneg hlb0 hbp.le) (by norm_num)
  have hcA : 0 ≤ laan / bp * 100 * andel := mul_nonneg hcL ha0
  rw [eierandel_a_closed]
  constructor
  · exact add_nonneg (mul_nonneg (div_nonneg hek hbp.le) (by norm_num))
      (mul_nonneg hcA hp0)
  · have h3 : laan / bp * 100 * andel * prosent_nedbetalt laan nedb i ≤
        laan / bp * 100 := by
      calc laan / bp * 100 * andel * prosent_nedbetalt laan nedb i ≤
            laan / bp * 100 * andel * 1 := mul_le_mul_of_nonneg_left hp1 hcA
        _ = laan / bp * 100 * andel := by ring
        _ ≤ laan / bp * 100 * 1 := mul_le_mul_of_nonneg_left ha1 hcL
        _ = laan / bp * 100 := by ring
    have h4 : ek / bp * 100 + laan / bp * 100 = (ek + laan) / bp * 100 := by ring
    linarith

/-- C8: under the source's input discipline (non-negative equities, a
positive price, the loan equal to price minus total equity and
non-negative, and a payment-split fraction in [0, 1]), each party's
ownership percentage lies within [0, 100] at every elapsed year, the two
percentages sum to at most 100, and each party's percentage is
non-decreasing over time. -/
theorem ownership_over_time_bounds_and_monotone
    (egenkapital_a egenkapital_b boligpris laanebelop : ℚ)
    (nedbetalingstid : ℕ) (avdrag_andel_a : ℚ)
    (hea : 0 ≤ egenkapital_a) (heb : 0 ≤ egenkapital_b) (hbp : 0 < boligpris)
    (hlb : laanebelop = boligpris - (egenkapital_a + egenkapital_b))
    (hlb0 : 0 ≤ laanebelop)
    (ha0 : 0 ≤ avdrag_andel_a) (ha1 : avdrag_andel_a ≤ 1) :
    ∀ i : ℕ,
      (0 ≤ eierandel_a_over_tid egenkapital_a boligpris laanebelop nedbetalingstid
          avdrag_andel_a i ∧
        eierandel_a_over_tid egenkapital_a boligpris laanebelop nedbetalingstid
          avdrag_andel_a i ≤ 100) ∧
      (0 ≤ eierandel_b_over_tid egenkapital_b boligpris laanebelop nedbetalingstid
          avdrag_andel_a i ∧
        eierandel_b_over_tid egenkapital_b boligpris laanebelop nedbetalingstid
          avdrag_andel_a i ≤ 100) ∧
      (eierandel_a_over_tid egenkapital_a boligpris laanebelop nedbetalingstid
          avdrag_andel_a i +
        eierandel_b_over_tid egenkapital_b boligpris laanebelop nedbetalingstid
          avdrag_andel_a i ≤ 100) ∧
      (∀ j : ℕ, i ≤ j →
        eierandel_a_over_tid egenkapital_a boligpris laanebelop nedbetalingstid
            avdrag_andel_a i ≤
          eierandel_a_over_tid egenkapital_a boligpris laanebelop nedbetalingstid
            avdrag_andel_a j ∧
        eierandel_b_over_tid egenkapital_b boligpris laanebelop nedbetalingstid
            avdrag_andel_a i ≤
          eierandel_b_over_tid egenkapital_b boligpris laanebelop nedbetalingstid
            avdrag_andel_a j) := by
  intro i
  have hp0 := prosent_nedbetalt_nonneg laanebelop nedbetalingstid i
  have hp1 := prosent_nedbetalt_le_one laanebelop nedbetalingstid i
  have hA := eierandel_bounds egenkapital_a boligpris laanebelop nedbetalingstid
    avdrag_andel_a i hea hbp hlb0 ha0 ha1
  have hB := eierandel_bounds egenkapital_b boligpris laanebelop nedbetalingstid
    (1 - avdrag_andel_a) i heb hbp hlb0 (by linarith) (by linarith)
  have hcL : 0 ≤ laanebelop / boligpris * 100 :=
    mul_nonneg (div_nonneg hlb0 hbp.le) (by norm_num)
  have hua : (egenkapital_a + laanebelop) / boligpris * 100 ≤ 100 := by
    have h : (egenkapital_a + laanebelop) / boligpris ≤ 1 :=
      (div_le_one hbp).mpr (by linarith)
    nlinarith
  have hub : (egenkapital_b + laanebelop) / boligpris * 100 ≤ 100 := by
    have h : (egenkapital_b + laanebelop) / boligpris ≤ 1 :=
      (div_le_one hbp).mpr (by linarith)
    nlinarith
  refine ⟨⟨hA.1, le_trans hA.2 hua⟩, ⟨hB.1, le_trans hB.2 hub⟩, ?_, ?_⟩
  · have hsum : eierandel_a_over_tid egenkapital_a boligpris laanebelop
        nedbetalingstid avdrag_andel_a i +
        eierandel_b_over_tid egenkapital_b boligpris laanebelop nedbetalingstid
          avdrag_andel_a i =
        (egenkapital_a + egenkapital_b +
          laanebelop * prosent_nedbetalt laanebelop nedbetalingstid i) /
          boligpris * 100 := by
      rw [eierandel_b_over_tid, eierandel_a_closed, eierandel_a_closed]
      ring
    rw [hsum]
    have hlp : laanebelop * prosent_nedbetalt laanebelop nedbetalingstid i ≤
        laanebelop := by nlinarith
    have h : (egenkapital_a + egenkapital_b +
        laanebelop * prosent_nedbetalt laanebelop nedbetalingstid i) / boligpris ≤ 1 :=
      (div_le_one hbp).mpr (by linarith)
    nlinarith
  · intro j hij
    have hmono := prosent_nedbetalt_mono laanebelop nedbetalingstid hij
    constructor
    · rw [eierandel_a_closed, eierandel_a_closed]
      have h := mul_le_mul_of_nonneg_left hmono (mul_nonneg hcL ha0)
      linarith
    · rw [eierandel_b_over_tid, eierandel_b_over_tid, eierandel_a_closed,
        eierandel_a_closed]
      have h := mul_le_mul_of_nonneg_left hmono
        (mul_nonneg hcL (by linarith : (0 : ℚ) ≤ 1 - avdrag_andel_a))
      linarith

/-- C8 (witness): equities 10 and 10, price 100, loan 80, term 5 years,
equal split fraction, years 1 and 3. -/
theorem ownership_over_time_bounds_and_monotone_witness :
    ((0 : ℚ) ≤ 10 ∧ (0 : ℚ) < 100 ∧ (80 : ℚ) = 100 - (10 + 10) ∧ (0 : ℚ) ≤ 80 ∧
      (0 : ℚ) ≤ 1 / 2 ∧ (1 / 2 : ℚ) ≤ 1 ∧ (1 : ℕ) ≤ 3) ∧
    (0 ≤ eierandel_a_over_tid 10 100 80 5 (1 / 2) 1 ∧
      eierandel_a_over_tid 10 100 80 5 (1 / 2) 1 ≤ 100 ∧
      eierandel_a_over_tid 10 100 80 5 (1 / 2) 1 +
        eierandel_b_over_tid 10 100 80 5 (1 / 2) 1 ≤ 100 ∧
      eierandel_a_over_tid 10 100 80 5 (1 / 2) 1 ≤
        eierandel_a_over_tid 10 100 80 5 (1 / 2) 3 ∧
      eierandel_b_over_tid 10 100 80 5 (1 / 2) 1 ≤
        eierandel_b_over_tid 10 100 80 5 (1 / 2) 3) := by
  have h := ownership_over_time_bounds_and_monotone 10 10 100 80 5 (1 / 2)
    (by norm_num) (by norm_num) (by norm_num) (by norm_num) (by norm_num)
    (by norm_num) (by norm_num) 1
  exact ⟨⟨by norm_num, by norm_num, by norm_num, by norm_num, by norm_num,
      by norm_num, by norm_num⟩,
    h.1.1, h.1.2, h.2.2.1, (h.2.2.2 3 (by norm_num)).1, (h.2.2.2 3 (by norm_num)).2⟩
